import Mathlib

/-!
Shallow embedding of the donation-ledger logic of the kindnesshome
backend (files `src/models/campaign.py`, `src/models/donation.py`,
`src/routes/campaigns.py`, `src/routes/donations.py`).

Monetary values are Python `Decimal`s (exact decimal arithmetic), modelled
here as `ℚ`.  Timestamps (`datetime`) only matter through their ordering,
so they are modelled as `ℤ`.  SQLAlchemy nullable columns are `Option`s.
HTTP error responses are modelled as an explicit error type; the database
session is modelled by returning the updated records (a request that
errors out before `db.session.commit()` performs no mutation, which the
embedding renders by returning only the error).
-/

namespace KindnessHome

/-- Campaign row (`src/models/campaign.py`), restricted to the columns the
ledger logic reads or writes. `raised_amount` and `matching_pool` default
to 0 in the schema; `raised_amount` is read through `(raised_amount or 0)`
in the routes, which is the identity on every decimal value (a zero
`Decimal` is falsy in Python but `0 or 0 = 0`), so it is modelled as a
plain `ℚ`. -/
structure Campaign where
  organization_id : String
  goal_amount : Option ℚ
  raised_amount : ℚ
  status : String
  start_date : Option ℤ
  end_date : Option ℤ
  matching_enabled : Bool
  matching_pool : ℚ
  matching_ratio : ℚ
  deriving DecidableEq

/-- `Campaign.is_active` (`src/models/campaign.py` lines 81-89): status must
be the string `active`, and `now` must not lie strictly before `start_date`
nor strictly after `end_date` (when those are set). -/
def Campaign.is_active (c : Campaign) (now : ℤ) : Bool :=
  if c.status ≠ "active" then false
  else if (match c.start_date with | some s => decide (now < s) | none => false) then false
  else if (match c.end_date with | some e => decide (e < now) | none => false) then false
  else true

/-- `Campaign.calculate_progress_percentage` (`src/models/campaign.py`
lines 76-79): 0 when `goal_amount` is null or 0, otherwise
`min 100 (raised_amount / goal_amount * 100)`.  The source converts the
decimals to floats before dividing; the division is modelled exactly
in `ℚ`. -/
def Campaign.calculate_progress_percentage (c : Campaign) : ℚ :=
  match c.goal_amount with
  | none => 0
  | some g => if g = 0 then 0 else min 100 (c.raised_amount / g * 100)

/-- Donation row (`src/models/donation.py`), restricted to the columns the
ledger logic writes. -/
structure Donation where
  user_id : String
  organization_id : String
  campaign_id : Option String
  amount : ℚ
  currency : String
  payment_method : String
  payment_processor_id : String
  payment_status : String
  transaction_fee : ℚ
  platform_fee : ℚ
  net_amount : ℚ
  is_anonymous : Bool
  donor_message : Option String
  matching_gift_eligible : Bool
  matching_gift_status : Option String
  matching_gift_amount : Option ℚ
  deriving DecidableEq

/-- The `amount` field of a donation request as the route sees it.
`missing` covers an absent key and every falsy value (`data.get('amount')`
is checked by Python truthiness, so the JSON number `0` also falls here);
`unparsable` is a truthy value on which `Decimal(str(...))` raises;
`parsed q` is a truthy value that parses to the decimal `q`. -/
inductive RawAmount where
  | missing
  | unparsable
  | parsed (q : ℚ)
  deriving DecidableEq

/-- The distinct 4xx validation responses of `donate_to_campaign`
(`src/routes/campaigns.py` lines 282-299). -/
inductive DonateError where
  | campaignNotFound
  | campaignNotActive
  | amountRequired
  | amountNotPositive
  | invalidAmountFormat
  deriving DecidableEq

/-- The spec groups the three amount-validation responses under the single
error kind `InvalidAmount` (non-positive or unparsable amount). -/
def DonateError.isInvalidAmount : DonateError → Bool
  | .amountRequired => true
  | .amountNotPositive => true
  | .invalidAmountFormat => true
  | _ => false

/-- Request body of `POST /campaigns/<id>/donate`, with the `data.get`
defaults already applied (`currency` defaults to `USD`, `payment_method`
to `stripe`, `cover_fees` and `is_anonymous` to false). -/
structure DonateRequest where
  amount : RawAmount
  currency : String
  payment_method : String
  cover_fees : Bool
  is_anonymous : Bool
  donor_message : Option String
  deriving DecidableEq

/-- What one successful settlement commits: the updated campaign row and
the donation rows inserted, in insertion order. -/
structure DonateResult where
  campaign : Campaign
  donations : List Donation
  deriving DecidableEq

/-- `donate_to_campaign` (`src/routes/campaigns.py` lines 274-364), from the
point where the campaign row has been found.  Mirrors the source order:
activity check, amount validation, fee computation, primary donation
insert, `raised_amount` update, then the matching block guarded by
`matching_enabled and matching_pool > 0` and `match_amount > 0`. -/
def donate_to_campaign (c : Campaign) (now : ℤ) (user_id campaign_id : String)
    (req : DonateRequest) : Except DonateError DonateResult :=
  if c.is_active now = false then .error .campaignNotActive
  else match req.amount with
  | .missing => .error .amountRequired
  | .unparsable => .error .invalidAmountFormat
  | .parsed amount =>
    if amount ≤ 0 then .error .amountNotPositive
    else
      let transaction_fee : ℚ := amount * (29/1000) + 3/10
      let platform_fee : ℚ := if req.cover_fees then amount * (1/100) else 0
      let net_amount : ℚ := amount - transaction_fee - platform_fee
      let donation : Donation :=
        { user_id := user_id
          organization_id := c.organization_id
          campaign_id := some campaign_id
          amount := amount
          currency := req.currency
          payment_method := req.payment_method
          payment_processor_id := "camp_" ++ campaign_id ++ "_" ++ user_id
          payment_status := "completed"
          transaction_fee := transaction_fee
          platform_fee := platform_fee
          net_amount := net_amount
          is_anonymous := req.is_anonymous
          donor_message := req.donor_message
          matching_gift_eligible := false
          matching_gift_status := none
          matching_gift_amount := none }
      let c₁ : Campaign := { c with raised_amount := c.raised_amount + amount }
      if c₁.matching_enabled = true ∧ 0 < c₁.matching_pool then
        let match_amount : ℚ := min (amount * c₁.matching_ratio) c₁.matching_pool
        if 0 < match_amount then
          let c₂ : Campaign :=
            { c₁ with matching_pool := c₁.matching_pool - match_amount
                      raised_amount := c₁.raised_amount + match_amount }
          let matching_donation : Donation :=
            { user_id := user_id
              organization_id := c.organization_id
              campaign_id := some campaign_id
              amount := match_amount
              currency := req.currency
              payment_method := "platform_matching"
              payment_processor_id := "match_" ++ campaign_id ++ "_" ++ user_id
              payment_status := "completed"
              transaction_fee := 0
              platform_fee := 0
              net_amount := match_amount
              is_anonymous := true
              donor_message := some "Platform matching donation"
              matching_gift_eligible := false
              matching_gift_status := none
              matching_gift_amount := none }
          .ok { campaign := c₂, donations := [donation, matching_donation] }
        else .ok { campaign := c₁, donations := [donation] }
      else .ok { campaign := c₁, donations := [donation] }

/-- One settlement step viewed as a transition on the campaign row alone:
on success the committed campaign row, on a validation error the unchanged
row (nothing was written). -/
def settleOne (now : ℤ) (user_id campaign_id : String) (req : DonateRequest)
    (c : Campaign) : Campaign :=
  match donate_to_campaign c now user_id campaign_id req with
  | .ok r => r.campaign
  | .error _ => c

/-- A sequence of settlements applied one after the other (the store
serializes concurrent donations to one campaign row, so any interleaving
is some such sequence). -/
def settleAll (now : ℤ) (user_id campaign_id : String) (c : Campaign) :
    List DonateRequest → Campaign
  | [] => c
  | req :: reqs => settleAll now user_id campaign_id
      (settleOne now user_id campaign_id req c) reqs

/-- The distinct 4xx validation responses of `create_donation`
(`src/routes/donations.py` lines 19-36). -/
inductive CreateDonationError where
  | organizationRequired
  | amountRequired
  | organizationNotFound
  | amountNotPositive
  | invalidAmountFormat
  deriving DecidableEq

/-- The amount-validation responses of `create_donation` the spec groups
under `InvalidAmount`. -/
def CreateDonationError.isInvalidAmount : CreateDonationError → Bool
  | .amountRequired => true
  | .amountNotPositive => true
  | .invalidAmountFormat => true
  | _ => false

/-- Request body of `POST /donations`, with the `data.get` defaults
applied.  `organization_id` is `none` when the key is absent or falsy;
`campaign_id` likewise. -/
structure CreateDonationRequest where
  organization_id : Option String
  amount : RawAmount
  campaign_id : Option String
  currency : String
  payment_method : String
  cover_fees : Bool
  is_anonymous : Bool
  donor_message : Option String
  matching_gift_eligible : Bool
  deriving DecidableEq

/-- What `create_donation` commits.  The route commits twice: first the
new row with `payment_status = 'pending'` together with the campaign
update, then — simulating payment confirmation — the same row flipped to
`'completed'`.  Both snapshots of the donation row are returned. -/
structure CreateDonationResult where
  committed : Donation
  final : Donation
  campaign : Option Campaign
  deriving DecidableEq

/-- `create_donation` (`src/routes/donations.py` lines 12-93).
`org_found_active` is the outcome of the `Organization.query.get` check;
`lookup` is the row `Campaign.query.get(campaign_id)` would return when
`campaign_id` is set (`none` for a dangling id); `processor_id` stands for
the generated `uuid4` string.  Source order: required-field loop
(`organization_id`, then `amount`), organization check, amount parse and
positivity check, fee computation, insert, campaign `raised_amount`
update, commit, then the simulated flip to `completed`. -/
def create_donation (user_id : String) (req : CreateDonationRequest)
    (org_found_active : Bool) (lookup : Option Campaign)
    (processor_id : String) :
    Except CreateDonationError CreateDonationResult :=
  match req.organization_id, req.amount with
  | none, _ => .error .organizationRequired
  | some _, .missing => .error .amountRequired
  | some oid, ra =>
    if org_found_active = false then .error .organizationNotFound
    else match ra with
    | .missing => .error .amountRequired
    | .unparsable => .error .invalidAmountFormat
    | .parsed amount =>
      if amount ≤ 0 then .error .amountNotPositive
      else
        let transaction_fee : ℚ := amount * (29/1000) + 3/10
        let platform_fee : ℚ := if req.cover_fees then amount * (1/100) else 0
        let net_amount : ℚ := amount - transaction_fee - platform_fee
        let donation : Donation :=
          { user_id := user_id
            organization_id := oid
            campaign_id := req.campaign_id
            amount := amount
            currency := req.currency
            payment_method := req.payment_method
            payment_processor_id := processor_id
            payment_status := "pending"
            transaction_fee := transaction_fee
            platform_fee := platform_fee
            net_amount := net_amount
            is_anonymous := req.is_anonymous
            donor_message := req.donor_message
            matching_gift_eligible := req.matching_gift_eligible
            matching_gift_status := none
            matching_gift_amount := none }
        let campaign' : Option Campaign :=
          match req.campaign_id with
          | none => none
          | some _ =>
            lookup.map (fun c => { c with raised_amount := c.raised_amount + amount })
        .ok { committed := donation
              final := { donation with payment_status := "completed" }
              campaign := campaign' }

/-- MatchingGift row (`src/models/donation.py` lines 128-173), restricted
to the columns `create_matching_gift` writes. -/
structure MatchingGift where
  donation_id : String
  employer_name : String
  employer_ein : Option String
  employee_email : String
  match_ratio : ℚ
  match_amount : ℚ
  status : String
  deriving DecidableEq

/-- The 4xx validation responses of `create_matching_gift`
(`src/routes/donations.py` lines 147-203). -/
inductive MatchingGiftError where
  | notEligible
  | employerNameRequired
  | employeeEmailRequired
  deriving DecidableEq

/-- Request body of `POST /donations/<id>/matching-gift`.  `match_ratio`
is the parsed value of `data.get('match_ratio', '1.0')`: `none` when the
key is absent, in which case the default string `1.0` parses to 1. -/
structure MatchingGiftRequest where
  employer_name : Option String
  employer_ein : Option String
  employee_email : Option String
  match_ratio : Option ℚ
  deriving DecidableEq

/-- `create_matching_gift` (`src/routes/donations.py` lines 147-203), from
the point where the donation row has been found for the caller.  Source
order: eligibility check, required-field loop (`employer_name`,
`employee_email`), `match_amount = donation.amount * match_ratio`, insert
of the MatchingGift row with status `pending`, and update of the donation's
`matching_gift_status` / `matching_gift_amount`.  Returns the new row and
the updated donation row. -/
def create_matching_gift (donation_id : String) (donation : Donation)
    (req : MatchingGiftRequest) :
    Except MatchingGiftError (MatchingGift × Donation) :=
  if donation.matching_gift_eligible = false then .error .notEligible
  else match req.employer_name, req.employee_email with
  | none, _ => .error .employerNameRequired
  | some _, none => .error .employeeEmailRequired
  | some employer_name, some employee_email =>
    let match_ratio : ℚ := req.match_ratio.getD 1
    let match_amount : ℚ := donation.amount * match_ratio
    .ok ({ donation_id := donation_id
           employer_name := employer_name
           employer_ein := req.employer_ein
           employee_email := employee_email
           match_ratio := match_ratio
           match_amount := match_amount
           status := "pending" },
         { donation with matching_gift_status := some "submitted"
                         matching_gift_amount := some match_amount })

/-- Modelled from the spec sentence "transaction_fee = round(amount*0.029
+ 0.30, 2)": the processor fee rounded to 2 decimal places.  Written only
to compare the spec's formula against the source's; the source
(`src/routes/donations.py` line 39, `src/routes/campaigns.py` line 304)
performs no rounding.  Mathlib's `round` is half-up while Python's
`round(Decimal, 2)` is half-even; they agree away from exact half-cents,
and the comparison below is made at an amount where no half-cent arises. -/
def specRoundedTransactionFee (amount : ℚ) : ℚ :=
  (round (100 * (amount * (29/1000) + 3/10)) : ℤ) / 100

/-- A fixed campaign used for concrete test inputs, with the schema
defaults (`raised_amount = 0`, matching disabled, pool 0, ratio 1). -/
def baseCampaign : Campaign :=
  { organization_id := "org1"
    goal_amount := none
    raised_amount := 0
    status := "active"
    start_date := none
    end_date := none
    matching_enabled := false
    matching_pool := 0
    matching_ratio := 1 }

/-- A fixed minimal donate request carrying a given raw amount. -/
def baseRequest (a : RawAmount) : DonateRequest :=
  { amount := a
    currency := "USD"
    payment_method := "stripe"
    cover_fees := false
    is_anonymous := false
    donor_message := none }

/-- C9: for every campaign, `progress_percentage` is 0 when the goal is
null or 0, equals `min 100 (raised_amount / goal_amount * 100)` otherwise,
and in particular raised 150 against goal 100 yields exactly 100, not
150. -/
theorem progress_percentage_clamped (c : Campaign) :
    ((c.goal_amount = none ∨ c.goal_amount = some 0) →
      c.calculate_progress_percentage = 0) ∧
    (∀ g : ℚ, c.goal_amount = some g → g ≠ 0 →
      c.calculate_progress_percentage = min 100 (c.raised_amount / g * 100)) ∧
    ({ baseCampaign with goal_amount := some 100, raised_amount := 150 } :
      Campaign).calculate_progress_percentage = 100 := by
  refine ⟨?_, ?_, ?_⟩
  · rintro (h | h) <;> simp [Campaign.calculate_progress_percentage, h]
  · intro g hg hg0
    simp [Campaign.calculate_progress_percentage, hg, hg0]
  · norm_num [Campaign.calculate_progress_percentage, baseCampaign]

/-- Witness for C9: the null-goal branch at a concrete campaign, and the
clamping branch at raised 150 / goal 100. -/
theorem progress_percentage_clamped_witness :
    baseCampaign.calculate_progress_percentage = 0 ∧
    ({ baseCampaign with goal_amount := some 100, raised_amount := 150 } :
      Campaign).calculate_progress_percentage = min 100 (150 / 100 * 100) :=
  ⟨(progress_percentage_clamped baseCampaign).1 (Or.inl rfl),
   ((progress_percentage_clamped _).2.1 100 rfl (by norm_num)).trans (by norm_num)⟩

/-- C5: a donation request against a campaign that is not currently active
(status not `active`, or `now` before `start_date`, or `now` after
`end_date`) fails with CampaignNotActive, and the campaign row is
unchanged — nothing is committed (the route returns before any write). -/
theorem donate_inactive_rejected (c : Campaign) (now : ℤ) (u cid : String)
    (req : DonateRequest)
    (h : c.status ≠ "active" ∨ (∃ s, c.start_date = some s ∧ now < s) ∨
         (∃ e, c.end_date = some e ∧ e < now)) :
    donate_to_campaign c now u cid req = .error .campaignNotActive ∧
    settleOne now u cid req c = c := by
  have hact : c.is_active now = false := by
    unfold Campaign.is_active
    rcases h with h | ⟨s, hs, hlt⟩ | ⟨e, he, hlt⟩
    · simp [h]
    · by_cases hst : c.status ≠ "active" <;> simp [hst, hs, hlt]
    · by_cases hst : c.status ≠ "active"
      · simp [hst]
      · cases hsd : c.start_date with
        | none => simp [hst, hsd, he, hlt]
        | some s => by_cases hnow : now < s <;> simp [hst, hsd, he, hlt, hnow]
  constructor
  · simp [donate_to_campaign, hact]
  · simp [settleOne, donate_to_campaign, hact]

/-- Witness for C5: donating to a campaign whose status is `completed`. -/
theorem donate_inactive_rejected_witness :
    ({ baseCampaign with status := "completed" } : Campaign).status ≠ "active" ∧
    donate_to_campaign { baseCampaign with status := "completed" } 0 "u1" "c1"
      (baseRequest (.parsed 50)) = .error .campaignNotActive :=
  ⟨by simp [baseCampaign],
   (donate_inactive_rejected { baseCampaign with status := "completed" } 0 "u1" "c1"
     (baseRequest (.parsed 50)) (Or.inl (by simp [baseCampaign]))).1⟩

/-- C6: a donation request whose amount is missing, unparsable, or ≤ 0 is
rejected with one of the amount-validation errors (the spec's
InvalidAmount), and the campaign row is unchanged — the checks run before
any write, so nothing is committed. -/
theorem donate_bad_amount_rejected (c : Campaign) (now : ℤ) (u cid : String)
    (req : DonateRequest)
    (hact : c.is_active now = true)
    (h : req.amount = .missing ∨ req.amount = .unparsable ∨
         ∃ a : ℚ, req.amount = .parsed a ∧ a ≤ 0) :
    (∃ e, donate_to_campaign c now u cid req = .error e ∧
      e.isInvalidAmount = true) ∧
    settleOne now u cid req c = c := by
  rcases h with h | h | ⟨a, h, ha⟩
  · exact ⟨⟨.amountRequired, by simp [donate_to_campaign, hact, h], rfl⟩,
      by simp [settleOne, donate_to_campaign, hact, h]⟩
  · exact ⟨⟨.invalidAmountFormat, by simp [donate_to_campaign, hact, h], rfl⟩,
      by simp [settleOne, donate_to_campaign, hact, h]⟩
  · exact ⟨⟨.amountNotPositive, by simp [donate_to_campaign, hact, h, ha], rfl⟩,
      by simp [settleOne, donate_to_campaign, hact, h, ha]⟩

/-- Witness for C6: an active campaign and the amount 0 (sent as a string,
so it parses but fails the positivity check). -/
theorem donate_bad_amount_rejected_witness :
    baseCampaign.is_active 0 = true ∧
    (∃ e, donate_to_campaign baseCampaign 0 "u1" "c1"
        (baseRequest (.parsed 0)) = .error e ∧ e.isInvalidAmount = true) :=
  ⟨by simp [Campaign.is_active, baseCampaign],
   (donate_bad_amount_rejected baseCampaign 0 "u1" "c1" (baseRequest (.parsed 0))
     (by simp [Campaign.is_active, baseCampaign])
     (Or.inr (Or.inr ⟨0, rfl, le_refl 0⟩))).1⟩

/-- Concrete campaign with matching enabled, a given pool and ratio;
otherwise the schema defaults.  Used as a test input. -/
def matchCampaign (pool ratio : ℚ) : Campaign :=
  { baseCampaign with
      matching_enabled := true
      matching_pool := pool
      matching_ratio := ratio }

/-- C1 counterexample: a campaign with matching enabled, pool 100 and
matching_ratio 0 (reachable — the route parses e.g. the JSON string "0"
into the ratio) settles a donation of 80 with match_amount
= min (80 * 0) 100 = 0 by the claim's formula, yet the code creates no
second donation record at all (`if match_amount > 0` fails), while the
claim asserts that a second record of amount match_amount is created for
every such settlement.  The settlement succeeds with exactly one donation
row and the pool untouched. -/
theorem donate_matching_ratio_zero_no_second_record :
    (donate_to_campaign (matchCampaign 100 0) 0 "u1" "c1"
        (baseRequest (.parsed 80))).toOption.map
        (fun r => (r.donations.length, r.campaign.matching_pool)) =
      some (1, 100) := by
  norm_num [donate_to_campaign, Campaign.is_active, matchCampaign, baseCampaign,
    baseRequest, Except.toOption]

/-- C1 (amended with matching_ratio > 0, which the zero-ratio
counterexample forces): settling a positive amount `a` against an active
campaign with matching enabled, pool `p > 0` and ratio `r > 0` applies
`match_amount = min (a * r) p`: the pool drops by exactly match_amount,
raised_amount grows by exactly `a + match_amount`, and the committed rows
are the donor's record of amount `a` followed by a second record of amount
match_amount.  The claim's p = 100, r = 1, a = 80 case and its clamped
p = 30, r = 1, a = 80 case are instances. -/
theorem donate_matching_pool_depletion
    (c : Campaign) (now : ℤ) (u cid : String) (req : DonateRequest) (a : ℚ)
    (hact : c.is_active now = true) (hamt : req.amount = .parsed a)
    (ha : 0 < a) (hme : c.matching_enabled = true)
    (hpool : 0 < c.matching_pool) (hratio : 0 < c.matching_ratio) :
    ∃ r, donate_to_campaign c now u cid req = .ok r ∧
      r.campaign.matching_pool =
        c.matching_pool - min (a * c.matching_ratio) c.matching_pool ∧
      r.campaign.raised_amount =
        c.raised_amount + (a + min (a * c.matching_ratio) c.matching_pool) ∧
      r.donations.map (fun d => d.amount) =
        [a, min (a * c.matching_ratio) c.matching_pool] := by
  have hm : 0 < min (a * c.matching_ratio) c.matching_pool :=
    lt_min (mul_pos ha hratio) hpool
  rcases hres : donate_to_campaign c now u cid req with e | r
  · exfalso
    simp only [donate_to_campaign, hact, hamt] at hres
    rw [if_neg (by simp), if_neg (not_le.mpr ha), if_pos ⟨hme, hpool⟩,
      if_pos hm] at hres
    cases hres
  · have key := hres
    simp only [donate_to_campaign, hact, hamt] at key
    rw [if_neg (by simp), if_neg (not_le.mpr ha), if_pos ⟨hme, hpool⟩,
      if_pos hm] at key
    injection key with h
    subst h
    exact ⟨_, rfl, rfl, by simp [add_assoc], rfl⟩

/-- Witness for C1: pool 100, ratio 1, amount 80 gives match 80, final
pool 20, raised 160 and donation rows of amounts 80 and 80 (the spec's
first worked example). -/
theorem donate_matching_pool_depletion_witness :
    (matchCampaign 100 1).is_active 0 = true ∧ (0 : ℚ) < 80 ∧
    (0 : ℚ) < (matchCampaign 100 1).matching_pool ∧
    (0 : ℚ) < (matchCampaign 100 1).matching_ratio ∧
    ∃ r, donate_to_campaign (matchCampaign 100 1) 0 "u1" "c1"
        (baseRequest (.parsed 80)) = .ok r ∧
      r.campaign.matching_pool = (matchCampaign 100 1).matching_pool -
        min (80 * (matchCampaign 100 1).matching_ratio)
          (matchCampaign 100 1).matching_pool ∧
      r.campaign.raised_amount = (matchCampaign 100 1).raised_amount +
        (80 + min (80 * (matchCampaign 100 1).matching_ratio)
          (matchCampaign 100 1).matching_pool) ∧
      r.donations.map (fun d => d.amount) =
        [80, min (80 * (matchCampaign 100 1).matching_ratio)
          (matchCampaign 100 1).matching_pool] :=
  ⟨by simp [Campaign.is_active, matchCampaign, baseCampaign], by norm_num,
   by norm_num [matchCampaign, baseCampaign],
   by norm_num [matchCampaign, baseCampaign],
   donate_matching_pool_depletion (matchCampaign 100 1) 0 "u1" "c1"
     (baseRequest (.parsed 80)) 80
     (by simp [Campaign.is_active, matchCampaign, baseCampaign]) rfl
     (by norm_num) (by simp [matchCampaign, baseCampaign])
     (by norm_num [matchCampaign, baseCampaign])
     (by norm_num [matchCampaign, baseCampaign])⟩

/-- C10: settling a positive amount `a` against an active campaign whose
matching is disabled or whose pool is ≤ 0 commits exactly one donation
row, of amount `a`, and the only campaign field that changes is
raised_amount, which grows by exactly `a` (the committed row equals the
input row with only raised_amount replaced, so matching_pool,
matching_ratio, goal_amount, status and the dates are all unchanged). -/
theorem donate_no_matching_frame
    (c : Campaign) (now : ℤ) (u cid : String) (req : DonateRequest) (a : ℚ)
    (hact : c.is_active now = true) (hamt : req.amount = .parsed a)
    (ha : 0 < a)
    (h : c.matching_enabled = false ∨ c.matching_pool ≤ 0) :
    ∃ d, donate_to_campaign c now u cid req =
        .ok { campaign := { c with raised_amount := c.raised_amount + a }
              donations := [d] } ∧
      d.amount = a := by
  have hng : ¬(c.matching_enabled = true ∧ 0 < c.matching_pool) := by
    rintro ⟨hme, hpool⟩
    rcases h with h | h
    · rw [h] at hme; cases hme
    · exact absurd hpool (not_lt.mpr h)
  rcases hres : donate_to_campaign c now u cid req with e | r
  · exfalso
    simp only [donate_to_campaign, hact, hamt] at hres
    rw [if_neg (by simp), if_neg (not_le.mpr ha), if_neg hng] at hres
    cases hres
  · have key := hres
    simp only [donate_to_campaign, hact, hamt] at key
    rw [if_neg (by simp), if_neg (not_le.mpr ha), if_neg hng] at key
    injection key with h'
    subst h'
    exact ⟨_, rfl, rfl⟩

/-- Witness for C10: an active campaign with matching disabled and a
donation of 25. -/
theorem donate_no_matching_frame_witness :
    baseCampaign.is_active 0 = true ∧ (0 : ℚ) < 25 ∧
    baseCampaign.matching_enabled = false ∧
    ∃ d, donate_to_campaign baseCampaign 0 "u1" "c1"
        (baseRequest (.parsed 25)) =
      .ok { campaign :=
              { baseCampaign with
                  raised_amount := baseCampaign.raised_amount + 25 }
            donations := [d] } ∧
      d.amount = 25 :=
  ⟨by simp [Campaign.is_active, baseCampaign], by norm_num,
   by simp [baseCampaign],
   donate_no_matching_frame baseCampaign 0 "u1" "c1" (baseRequest (.parsed 25)) 25
     (by simp [Campaign.is_active, baseCampaign]) rfl (by norm_num)
     (Or.inl (by simp [baseCampaign]))⟩

/-- C4 counterexample: in a concrete matching settlement (pool 100, ratio
1, donation 80 by user "u1") the second, matching donation row carries
user_id "u1" — the very same paying donor — so it is not attributed to the
platform rather than to the real paying donor, as the claim asserts; only
its payment_method ("platform_matching") and donor_message mark it as a
platform match. -/
theorem matching_donation_attributed_to_donor :
    (donate_to_campaign (matchCampaign 100 1) 0 "u1" "c1"
        (baseRequest (.parsed 80))).toOption.map
      (fun r => r.donations.map (fun d => (d.user_id, d.payment_method))) =
      some [("u1", "stripe"), ("u1", "platform_matching")] := by
  norm_num [donate_to_campaign, Campaign.is_active, matchCampaign, baseCampaign,
    baseRequest, Except.toOption]

/-- C4 (amended: the matching row is attributed to the same paying donor's
user_id, only its payment_method marks it as platform matching): whenever
matching triggers, the second donation row has zero transaction_fee, zero
platform_fee, is marked anonymous, carries payment_method
"platform_matching" and the platform donor_message, and its user_id is the
real paying donor's. -/
theorem matching_donation_zero_fee_anonymous
    (c : Campaign) (now : ℤ) (u cid : String) (req : DonateRequest) (a : ℚ)
    (hact : c.is_active now = true) (hamt : req.amount = .parsed a)
    (ha : 0 < a) (hme : c.matching_enabled = true)
    (hpool : 0 < c.matching_pool) (hratio : 0 < c.matching_ratio) :
    ∃ r d md, donate_to_campaign c now u cid req = .ok r ∧
      r.donations = [d, md] ∧
      md.transaction_fee = 0 ∧ md.platform_fee = 0 ∧
      md.is_anonymous = true ∧ md.payment_method = "platform_matching" ∧
      md.donor_message = some "Platform matching donation" ∧
      md.user_id = u := by
  have hm : 0 < min (a * c.matching_ratio) c.matching_pool :=
    lt_min (mul_pos ha hratio) hpool
  rcases hres : donate_to_campaign c now u cid req with e | r
  · exfalso
    simp only [donate_to_campaign, hact, hamt] at hres
    rw [if_neg (by simp), if_neg (not_le.mpr ha), if_pos ⟨hme, hpool⟩,
      if_pos hm] at hres
    cases hres
  · have key := hres
    simp only [donate_to_campaign, hact, hamt] at key
    rw [if_neg (by simp), if_neg (not_le.mpr ha), if_pos ⟨hme, hpool⟩,
      if_pos hm] at key
    injection key with h
    subst h
    exact ⟨_, _, _, rfl, rfl, rfl, rfl, rfl, rfl, rfl, rfl⟩

/-- Witness for C4: pool 100, ratio 1, donation 80 from "u1". -/
theorem matching_donation_zero_fee_anonymous_witness :
    (matchCampaign 100 1).is_active 0 = true ∧ (0 : ℚ) < 80 ∧
    (0 : ℚ) < (matchCampaign 100 1).matching_pool ∧
    ∃ r d md, donate_to_campaign (matchCampaign 100 1) 0 "u1" "c1"
        (baseRequest (.parsed 80)) = .ok r ∧
      r.donations = [d, md] ∧
      md.transaction_fee = 0 ∧ md.platform_fee = 0 ∧
      md.is_anonymous = true ∧ md.payment_method = "platform_matching" ∧
      md.donor_message = some "Platform matching donation" ∧
      md.user_id = "u1" :=
  ⟨by simp [Campaign.is_active, matchCampaign, baseCampaign], by norm_num,
   by norm_num [matchCampaign, baseCampaign],
   matching_donation_zero_fee_anonymous (matchCampaign 100 1) 0 "u1" "c1"
     (baseRequest (.parsed 80)) 80
     (by simp [Campaign.is_active, matchCampaign, baseCampaign]) rfl
     (by norm_num) (by simp [matchCampaign, baseCampaign])
     (by norm_num [matchCampaign, baseCampaign])
     (by norm_num [matchCampaign, baseCampaign])⟩

/-- C2 counterexample: for amount 10.01 the code stores transaction_fee
10.01 * 0.029 + 0.30 = 0.59029 unrounded, while the claim's formula
round(amount * 0.029 + 0.30, 2) gives 0.59; the two differ.  (At this
amount Mathlib rounding and Python banker rounding agree, no half-cent
arises.) -/
theorem transaction_fee_not_rounded :
    (donate_to_campaign baseCampaign 0 "u1" "c1"
        (baseRequest (.parsed (1001/100)))).toOption.map
      (fun r => r.donations.map (fun d => d.transaction_fee)) =
      some [59029/100000] ∧
    specRoundedTransactionFee (1001/100) = 59/100 ∧
    (59029/100000 : ℚ) ≠ 59/100 := by
  refine ⟨?_, ?_, by norm_num⟩
  · norm_num [donate_to_campaign, Campaign.is_active, baseCampaign, baseRequest,
      Except.toOption]
  · norm_num [specRoundedTransactionFee, round_eq]

/-- C2 (amended: the code performs no rounding, as the counterexample
forces): every donation created — by the campaign donate endpoint or by
POST /donations — carries transaction_fee = amount * 0.029 + 0.30 exactly,
platform_fee = amount * 0.01 when cover_fees is set and 0 otherwise, and
net_amount = amount - transaction_fee - platform_fee. -/
theorem fee_calculation_exact
    (c : Campaign) (now : ℤ) (u cid : String) (req : DonateRequest) (a : ℚ)
    (hact : c.is_active now = true) (hamt : req.amount = .parsed a)
    (ha : 0 < a) :
    (∃ r d, donate_to_campaign c now u cid req = .ok r ∧
      r.donations.head? = some d ∧
      d.transaction_fee = a * (29/1000) + 3/10 ∧
      d.platform_fee = (if req.cover_fees then a * (1/100) else 0) ∧
      d.net_amount = a - (a * (29/1000) + 3/10) -
        (if req.cover_fees then a * (1/100) else 0)) ∧
    (∀ (u2 : String) (creq : CreateDonationRequest) (oid pid : String)
        (lk : Option Campaign) (a2 : ℚ),
      creq.organization_id = some oid → creq.amount = .parsed a2 → 0 < a2 →
      ∃ res, create_donation u2 creq true lk pid = .ok res ∧
        res.committed.transaction_fee = a2 * (29/1000) + 3/10 ∧
        res.committed.platform_fee = (if creq.cover_fees then a2 * (1/100) else 0) ∧
        res.committed.net_amount = a2 - (a2 * (29/1000) + 3/10) -
          (if creq.cover_fees then a2 * (1/100) else 0)) := by
  constructor
  · rcases hres : donate_to_campaign c now u cid req with e | r
    · exfalso
      have key := hres
      simp only [donate_to_campaign, hact, hamt] at key
      rw [if_neg (by simp), if_neg (not_le.mpr ha)] at key
      split_ifs at key
    · have key := hres
      simp only [donate_to_campaign, hact, hamt] at key
      rw [if_neg (by simp), if_neg (not_le.mpr ha)] at key
      by_cases hg : c.matching_enabled = true ∧ 0 < c.matching_pool
      · rw [if_pos hg] at key
        by_cases hm : 0 < min (a * c.matching_ratio) c.matching_pool
        · rw [if_pos hm] at key
          injection key with h
          subst h
          exact ⟨_, _, rfl, rfl, rfl, rfl, rfl⟩
        · rw [if_neg hm] at key
          injection key with h
          subst h
          exact ⟨_, _, rfl, rfl, rfl, rfl, rfl⟩
      · rw [if_neg hg] at key
        injection key with h
        subst h
        exact ⟨_, _, rfl, rfl, rfl, rfl, rfl⟩
  · intro u2 creq oid pid lk a2 horg hamt2 ha2
    rcases hres : create_donation u2 creq true lk pid with e | res
    · exfalso
      have key := hres
      simp only [create_donation, horg, hamt2] at key
      rw [if_neg (by simp), if_neg (not_le.mpr ha2)] at key
      cases key
    · have key := hres
      simp only [create_donation, horg, hamt2] at key
      rw [if_neg (by simp), if_neg (not_le.mpr ha2)] at key
      injection key with h
      subst h
      exact ⟨_, rfl, rfl, rfl, rfl⟩

/-- A fixed minimal request body for POST /donations carrying a given raw
amount, organization "org1" present and found, no campaign link. -/
def baseCreateRequest (a : RawAmount) : CreateDonationRequest :=
  { organization_id := some "org1"
    amount := a
    campaign_id := none
    currency := "USD"
    payment_method := "stripe"
    cover_fees := false
    is_anonymous := false
    donor_message := none
    matching_gift_eligible := false }

/-- Witness for C2: amount 20 on both creation paths. -/
theorem fee_calculation_exact_witness :
    baseCampaign.is_active 0 = true ∧ (0 : ℚ) < 20 ∧
    (∃ r d, donate_to_campaign baseCampaign 0 "u1" "c1"
        (baseRequest (.parsed 20)) = .ok r ∧
      r.donations.head? = some d ∧
      d.transaction_fee = 20 * (29/1000) + 3/10 ∧
      d.platform_fee = (if (baseRequest (.parsed 20)).cover_fees
        then (20 : ℚ) * (1/100) else 0) ∧
      d.net_amount = 20 - (20 * (29/1000) + 3/10) -
        (if (baseRequest (.parsed 20)).cover_fees then (20 : ℚ) * (1/100) else 0)) ∧
    (∃ res, create_donation "u2" (baseCreateRequest (.parsed 20)) true none
        "pid1" = .ok res ∧
      res.committed.transaction_fee = 20 * (29/1000) + 3/10 ∧
      res.committed.platform_fee = (if (baseCreateRequest (.parsed 20)).cover_fees
        then (20 : ℚ) * (1/100) else 0) ∧
      res.committed.net_amount = 20 - (20 * (29/1000) + 3/10) -
        (if (baseCreateRequest (.parsed 20)).cover_fees then (20 : ℚ) * (1/100) else 0)) :=
  ⟨by simp [Campaign.is_active, baseCampaign], by norm_num,
   (fee_calculation_exact baseCampaign 0 "u1" "c1" (baseRequest (.parsed 20)) 20
     (by simp [Campaign.is_active, baseCampaign]) rfl (by norm_num)).1,
   (fee_calculation_exact baseCampaign 0 "u1" "c1" (baseRequest (.parsed 20)) 20
     (by simp [Campaign.is_active, baseCampaign]) rfl (by norm_num)).2
     "u2" (baseCreateRequest (.parsed 20)) "org1" "pid1" none 20 rfl rfl
     (by norm_num)⟩

/-- C7 counterexample: the campaign donate endpoint creates its donation
row directly with payment_status "completed" ("Simplified for demo" in the
source), never "pending", so the claim "every donation is created with
payment_status 'pending'" fails on this concrete settlement. -/
theorem campaign_donation_created_completed :
    (donate_to_campaign baseCampaign 0 "u1" "c1"
        (baseRequest (.parsed 50))).toOption.map
      (fun r => r.donations.map (fun d => d.payment_status)) =
      some ["completed"] := by
  norm_num [donate_to_campaign, Campaign.is_active, baseCampaign, baseRequest,
    Except.toOption]

/-- C7 (amended: only POST /donations uses the pending-then-completed
lifecycle, and the flip is an unconditional simulation rather than a real
payment confirmation; the campaign donate endpoint creates rows directly
as completed): a donation created through POST /donations is committed
with payment_status "pending", then the same row — changed in no other
field — is flipped to "completed", and a linked campaign's raised_amount
is updated exactly once, by the donation amount, at creation time; every
donation row the campaign donate endpoint commits has payment_status
"completed" from the start. -/
theorem donation_lifecycle
    (u : String) (creq : CreateDonationRequest) (oid pid cid : String)
    (a : ℚ) (c : Campaign)
    (horg : creq.organization_id = some oid) (hamt : creq.amount = .parsed a)
    (ha : 0 < a) (hcid : creq.campaign_id = some cid) :
    (∃ res, create_donation u creq true (some c) pid = .ok res ∧
      res.committed.payment_status = "pending" ∧
      res.final = { res.committed with payment_status := "completed" } ∧
      res.campaign = some { c with raised_amount := c.raised_amount + a }) ∧
    (∀ (c2 : Campaign) (now : ℤ) (u2 cid2 : String) (req : DonateRequest)
        (a2 : ℚ),
      c2.is_active now = true → req.amount = .parsed a2 → 0 < a2 →
      ∃ r, donate_to_campaign c2 now u2 cid2 req = .ok r ∧
        ∀ d ∈ r.donations, d.payment_status = "completed") := by
  constructor
  · rcases hres : create_donation u creq true (some c) pid with e | res
    · exfalso
      have key := hres
      simp only [create_donation, horg, hamt] at key
      rw [if_neg (by simp), if_neg (not_le.mpr ha)] at key
      cases key
    · have key := hres
      simp only [create_donation, horg, hamt, hcid] at key
      rw [if_neg (by simp), if_neg (not_le.mpr ha)] at key
      injection key with h
      subst h
      exact ⟨_, rfl, rfl, rfl, rfl⟩
  · intro c2 now u2 cid2 req a2 hact2 hamt2 ha2
    rcases hres : donate_to_campaign c2 now u2 cid2 req with e | r
    · exfalso
      have key := hres
      simp only [donate_to_campaign, hact2, hamt2] at key
      rw [if_neg (by simp), if_neg (not_le.mpr ha2)] at key
      split_ifs at key
    · have key := hres
      simp only [donate_to_campaign, hact2, hamt2] at key
      rw [if_neg (by simp), if_neg (not_le.mpr ha2)] at key
      by_cases hg : c2.matching_enabled = true ∧ 0 < c2.matching_pool
      · rw [if_pos hg] at key
        by_cases hm : 0 < min (a2 * c2.matching_ratio) c2.matching_pool
        · rw [if_pos hm] at key
          injection key with h
          subst h
          exact ⟨_, rfl, by simp⟩
        · rw [if_neg hm] at key
          injection key with h
          subst h
          exact ⟨_, rfl, by simp⟩
      · rw [if_neg hg] at key
        injection key with h
        subst h
        exact ⟨_, rfl, by simp⟩

/-- Witness for C7: amount 30 linked to campaign "c1" on POST /donations,
and amount 30 on the campaign endpoint. -/
theorem donation_lifecycle_witness :
    ({ baseCreateRequest (.parsed 30) with campaign_id := some "c1" } :
      CreateDonationRequest).organization_id = some "org1" ∧ (0 : ℚ) < 30 ∧
    (∃ res, create_donation "u1"
        { baseCreateRequest (.parsed 30) with campaign_id := some "c1" }
        true (some baseCampaign) "pid1" = .ok res ∧
      res.committed.payment_status = "pending" ∧
      res.final = { res.committed with payment_status := "completed" } ∧
      res.campaign = some { baseCampaign with
        raised_amount := baseCampaign.raised_amount + 30 }) ∧
    (∃ r, donate_to_campaign baseCampaign 0 "u2" "c1"
        (baseRequest (.parsed 30)) = .ok r ∧
      ∀ d ∈ r.donations, d.payment_status = "completed") :=
  ⟨rfl, by norm_num,
   (donation_lifecycle "u1"
     { baseCreateRequest (.parsed 30) with campaign_id := some "c1" }
     "org1" "pid1" "c1" 30 baseCampaign rfl rfl (by norm_num) rfl).1,
   (donation_lifecycle "u1"
     { baseCreateRequest (.parsed 30) with campaign_id := some "c1" }
     "org1" "pid1" "c1" 30 baseCampaign rfl rfl (by norm_num) rfl).2
     baseCampaign 0 "u2" "c1" (baseRequest (.parsed 30)) 30
     (by simp [Campaign.is_active, baseCampaign]) rfl (by norm_num)⟩

/-- A concrete donation row in payment_status "pending" and flagged
matching_gift_eligible, exactly as `create_donation` first commits it. -/
def pendingEligibleDonation : Donation :=
  { user_id := "u1"
    organization_id := "org1"
    campaign_id := none
    amount := 40
    currency := "USD"
    payment_method := "stripe"
    payment_processor_id := "pid1"
    payment_status := "pending"
    transaction_fee := 40 * (29/1000) + 3/10
    platform_fee := 0
    net_amount := 40 - (40 * (29/1000) + 3/10) - 0
    is_anonymous := false
    donor_message := none
    matching_gift_eligible := true
    matching_gift_status := none
    matching_gift_amount := none }

/-- C8 counterexample: `create_matching_gift` checks only
matching_gift_eligible, never payment_status, so a MatchingGift is
happily created for this donation whose payment_status is "pending" —
refuting the claim's "only for a donation ... whose payment_status is
'completed'".  The created record and donation update are otherwise as the
claim describes (default ratio 1, amount 40, status set to submitted). -/
theorem matching_gift_created_for_pending_donation :
    pendingEligibleDonation.payment_status = "pending" ∧
    (create_matching_gift "d1" pendingEligibleDonation
        { employer_name := some "Acme"
          employer_ein := none
          employee_email := some "e1@acme.example"
          match_ratio := none }).toOption.map
      (fun p => (p.1.match_amount, p.1.status, p.2.matching_gift_status)) =
      some (40, "pending", some "submitted") := by
  constructor
  · rfl
  · norm_num [create_matching_gift, pendingEligibleDonation, Except.toOption]

/-- C8 (amended: the completed-payment requirement is dropped — the code
never checks payment_status, as the counterexample shows): a MatchingGift
is created only for a donation flagged matching_gift_eligible (otherwise
the request fails with no mutation); on creation its match_ratio is the
requested ratio, defaulting to 1 when unspecified, its match_amount equals
donation.amount * match_ratio, its status is "pending", and the donation's
matching_gift_status is set to "submitted" with matching_gift_amount set
to match_amount. -/
theorem matching_gift_creation
    (did : String) (d : Donation) (req : MatchingGiftRequest) (en ee : String)
    (hen : req.employer_name = some en) (hee : req.employee_email = some ee) :
    (d.matching_gift_eligible = false →
      create_matching_gift did d req = .error .notEligible) ∧
    (d.matching_gift_eligible = true →
      ∃ mg d2, create_matching_gift did d req = .ok (mg, d2) ∧
        mg.match_ratio = req.match_ratio.getD 1 ∧
        mg.match_amount = d.amount * req.match_ratio.getD 1 ∧
        mg.status = "pending" ∧
        d2 = { d with
          matching_gift_status := some "submitted"
          matching_gift_amount := some (d.amount * req.match_ratio.getD 1) }) := by
  constructor
  · intro h
    simp [create_matching_gift, h]
  · intro h
    rcases hres : create_matching_gift did d req with e | pr
    · exfalso
      have key := hres
      simp only [create_matching_gift, hen, hee] at key
      rw [if_neg (by simp [h])] at key
      cases key
    · have key := hres
      simp only [create_matching_gift, hen, hee] at key
      rw [if_neg (by simp [h])] at key
      injection key with h2
      subst h2
      exact ⟨_, _, rfl, rfl, rfl, rfl, rfl⟩

/-- Witness for C8: the pending eligible donation with employer fields
present and no ratio given (default 1). -/
theorem matching_gift_creation_witness :
    pendingEligibleDonation.matching_gift_eligible = true ∧
    ∃ mg d2, create_matching_gift "d1" pendingEligibleDonation
        { employer_name := some "Acme"
          employer_ein := none
          employee_email := some "e1@acme.example"
          match_ratio := none } = .ok (mg, d2) ∧
      mg.match_ratio = (none : Option ℚ).getD 1 ∧
      mg.match_amount = pendingEligibleDonation.amount *
        (none : Option ℚ).getD 1 ∧
      mg.status = "pending" ∧
      d2 = { pendingEligibleDonation with
        matching_gift_status := some "submitted"
        matching_gift_amount := some (pendingEligibleDonation.amount *
          (none : Option ℚ).getD 1) } :=
  ⟨rfl,
   (matching_gift_creation "d1" pendingEligibleDonation
     { employer_name := some "Acme"
       employer_ein := none
       employee_email := some "e1@acme.example"
       match_ratio := none } "Acme" "e1@acme.example" rfl rfl).2 rfl⟩

/-- Helper: a successful settlement only grows raised_amount, only shrinks
the matching pool, and keeps a nonnegative pool nonnegative. -/
theorem donate_to_campaign_bounds
    (c : Campaign) (now : ℤ) (u cid : String) (req : DonateRequest)
    (r : DonateResult) (hpool : 0 ≤ c.matching_pool)
    (h : donate_to_campaign c now u cid req = .ok r) :
    c.raised_amount ≤ r.campaign.raised_amount ∧
    r.campaign.matching_pool ≤ c.matching_pool ∧
    0 ≤ r.campaign.matching_pool := by
  simp only [donate_to_campaign] at h
  by_cases hact : c.is_active now = false
  · rw [if_pos hact] at h
    cases h
  · rw [if_neg hact] at h
    rcases hamt : req.amount with _ | _ | a
    · simp only [hamt] at h
      cases h
    · simp only [hamt] at h
      cases h
    · simp only [hamt] at h
      by_cases hle : a ≤ 0
      · rw [if_pos hle] at h
        cases h
      · rw [if_neg hle] at h
        have ha : 0 < a := not_le.mp hle
        by_cases hg : c.matching_enabled = true ∧ 0 < c.matching_pool
        · rw [if_pos hg] at h
          by_cases hm : 0 < min (a * c.matching_ratio) c.matching_pool
          · rw [if_pos hm] at h
            injection h with h
            subst h
            refine ⟨?_, ?_, ?_⟩
            · show c.raised_amount ≤
                c.raised_amount + a + min (a * c.matching_ratio) c.matching_pool
              linarith
            · show c.matching_pool - min (a * c.matching_ratio) c.matching_pool ≤
                c.matching_pool
              linarith
            · show 0 ≤
                c.matching_pool - min (a * c.matching_ratio) c.matching_pool
              have h2 := min_le_right (a * c.matching_ratio) c.matching_pool
              linarith
          · rw [if_neg hm] at h
            injection h with h
            subst h
            refine ⟨?_, le_refl _, hpool⟩
            show c.raised_amount ≤ c.raised_amount + a
            linarith
        · rw [if_neg hg] at h
          injection h with h
          subst h
          refine ⟨?_, le_refl _, hpool⟩
          show c.raised_amount ≤ c.raised_amount + a
          linarith

/-- Helper: the single-step campaign transition satisfies the same bounds,
whether the request is accepted or rejected. -/
theorem settleOne_bounds (now : ℤ) (u cid : String) (req : DonateRequest)
    (c : Campaign) (hpool : 0 ≤ c.matching_pool) :
    c.raised_amount ≤ (settleOne now u cid req c).raised_amount ∧
    (settleOne now u cid req c).matching_pool ≤ c.matching_pool ∧
    0 ≤ (settleOne now u cid req c).matching_pool := by
  unfold settleOne
  rcases hres : donate_to_campaign c now u cid req with e | r
  · exact ⟨le_refl _, le_refl _, hpool⟩
  · exact donate_to_campaign_bounds c now u cid req r hpool hres

/-- C3: across every sequence of settlements, raised_amount never
decreases and the matching pool never increases and never becomes negative
(from a nonnegative start); concretely, two sequential donations of 50
each at ratio 1 against a pool of 60 deplete it 60 → 10 → 0 — the first
matches 50, the second only the remaining 10, their sum exactly 60, not
100 — leaving raised_amount 160 (= 50 + 50 + 60). -/
theorem settlement_pool_invariants
    (now : ℤ) (u cid : String) (c : Campaign) (reqs : List DonateRequest)
    (hpool : 0 ≤ c.matching_pool) :
    (c.raised_amount ≤ (settleAll now u cid c reqs).raised_amount ∧
     (settleAll now u cid c reqs).matching_pool ≤ c.matching_pool ∧
     0 ≤ (settleAll now u cid c reqs).matching_pool) ∧
    ((settleOne 0 "u1" "c1" (baseRequest (.parsed 50))
        (matchCampaign 60 1)).matching_pool = 10 ∧
     (settleAll 0 "u1" "c1" (matchCampaign 60 1)
        [baseRequest (.parsed 50), baseRequest (.parsed 50)]).matching_pool
        = 0 ∧
     (settleAll 0 "u1" "c1" (matchCampaign 60 1)
        [baseRequest (.parsed 50), baseRequest (.parsed 50)]).raised_amount
        = 160) := by
  have main : ∀ (c2 : Campaign), 0 ≤ c2.matching_pool →
      c2.raised_amount ≤ (settleAll now u cid c2 reqs).raised_amount ∧
      (settleAll now u cid c2 reqs).matching_pool ≤ c2.matching_pool ∧
      0 ≤ (settleAll now u cid c2 reqs).matching_pool := by
    induction reqs with
    | nil => exact fun c2 hp => ⟨le_refl _, le_refl _, hp⟩
    | cons req rest ih =>
      intro c2 hp
      have h1 := settleOne_bounds now u cid req c2 hp
      have h2 := ih (settleOne now u cid req c2) h1.2.2
      exact ⟨le_trans h1.1 h2.1, le_trans h2.2.1 h1.2.1, h2.2.2⟩
  refine ⟨main c hpool, ?_, ?_, ?_⟩
  · norm_num [settleOne, donate_to_campaign, Campaign.is_active, matchCampaign,
      baseCampaign, baseRequest, min_def]
  · norm_num [settleAll, settleOne, donate_to_campaign, Campaign.is_active,
      matchCampaign, baseCampaign, baseRequest, min_def]
  · norm_num [settleAll, settleOne, donate_to_campaign, Campaign.is_active,
      matchCampaign, baseCampaign, baseRequest, min_def]

/-- Witness for C3: the pool-60 campaign with the two 50-donations. -/
theorem settlement_pool_invariants_witness :
    (0 : ℚ) ≤ (matchCampaign 60 1).matching_pool ∧
    ((matchCampaign 60 1).raised_amount ≤
      (settleAll 0 "u1" "c1" (matchCampaign 60 1)
        [baseRequest (.parsed 50), baseRequest (.parsed 50)]).raised_amount ∧
     (settleAll 0 "u1" "c1" (matchCampaign 60 1)
        [baseRequest (.parsed 50), baseRequest (.parsed 50)]).matching_pool ≤
      (matchCampaign 60 1).matching_pool ∧
     0 ≤ (settleAll 0 "u1" "c1" (matchCampaign 60 1)
        [baseRequest (.parsed 50), baseRequest (.parsed 50)]).matching_pool) :=
  ⟨by norm_num [matchCampaign, baseCampaign],
   (settlement_pool_invariants 0 "u1" "c1" (matchCampaign 60 1)
     [baseRequest (.parsed 50), baseRequest (.parsed 50)]
     (by norm_num [matchCampaign, baseCampaign])).1⟩

end KindnessHome
